import Mathlib

/-!
Shallow embedding of the authentication subsystem of a Next.js blog
application: the JWT helper module (generateToken, verifyToken,
extractTokenFromHeader, the verifyJWT gate), the signup, login and me
route handlers, and the password hasher and token library collaborators
(modelled from the specification where the source is not in the
repository).
-/

namespace NextAuth

/-- JavaScript truthiness test on an optional string: a missing value and
the empty string are both falsy. -/
def jsFalsy : Option String → Bool
  | none => true
  | some s => s.data.isEmpty

/-- JavaScript String.startsWith as a character-sequence test (the checked
prefixes here are ASCII, so code units and characters coincide). -/
def strStartsWith (s pre : String) : Bool :=
  pre.data.isPrefixOf s.data

/-- JavaScript String.substring from a character index to the end. -/
def strDrop (s : String) (n : Nat) : String :=
  String.mk (s.data.drop n)

/-- String suffix test as a character-sequence test. -/
def strEndsWith (s suf : String) : Bool :=
  suf.data.isSuffixOf s.data

/-- Parse a character sequence as a base 10 numeral; none when empty or
when any character is not a digit. -/
def digitsToNat? (l : List Char) : Option Nat :=
  if l.isEmpty then none
  else
    l.foldl
      (fun acc c =>
        match acc with
        | none => none
        | some n => if c.isDigit then some (n * 10 + (c.toNat - 48)) else none)
      (some 0)

/-- The payload the endpoints sign into a session token: subject
identifier, email, name and role. -/
structure Claims where
  userId : Nat
  email : String
  name : String
  role : String
deriving DecidableEq, Repr

/-- Modelled from the spec: a signed token records its claims, the
issued-at time, the computed expiry, and the secret that signed it.
Signature validity is modelled as equality of the recorded secret with
the verifying secret. -/
structure SignedToken where
  payload : Claims
  iat : Nat
  exp : Nat
  secret : String
deriving DecidableEq, Repr

/-- Modelled from the spec: a token string on the wire either decodes to
a structurally well-formed signed token or is malformed. -/
inductive TokenWire where
  | malformed (raw : String) : TokenWire
  | signed (t : SignedToken) : TokenWire
deriving DecidableEq, Repr

/-- The process environment as read by the JWT module: the two optional
variables JWT_SECRET and JWT_EXPIRES_IN. -/
structure Env where
  jwtSecretVar : Option String
  jwtExpiresInVar : Option String
deriving DecidableEq, Repr

/-- Source: the module-level constant that falls back to the hardcoded
default secret when the environment variable is unset. -/
def JWT_SECRET (env : Env) : String :=
  env.jwtSecretVar.getD "your-super-secret-jwt-key"

/-- Source: the module-level expiry configuration that falls back to the
string 7d when the environment variable is unset. -/
def JWT_EXPIRES_IN (env : Env) : String :=
  env.jwtExpiresInVar.getD "7d"

/-- Modelled from the spec: the duration strings the token library
accepts, converted to seconds; a count suffixed with d means days, h
hours, m minutes, s seconds, and a bare count is seconds. Unparseable
strings yield none, modelling the exception the library raises. -/
def parseExpiresIn (s : String) : Option Nat :=
  if strEndsWith s "d" then (digitsToNat? s.data.dropLast).map (· * 86400)
  else if strEndsWith s "h" then (digitsToNat? s.data.dropLast).map (· * 3600)
  else if strEndsWith s "m" then (digitsToNat? s.data.dropLast).map (· * 60)
  else if strEndsWith s "s" then (digitsToNat? s.data.dropLast).map (· * 1)
  else digitsToNat? s.data

/-- Modelled from the spec: signing produces a token carrying the claims
plus issued-at and computed expiry equal to issued-at plus the ttl. -/
def jwtSign (payload : Claims) (secret : String) (ttl : Nat) (now : Nat) : SignedToken :=
  { payload := payload, iat := now, exp := now + ttl, secret := secret }

/-- Modelled from the spec: verification fails when the structure is
malformed, when the signature does not match the verifying secret, or
when the current time is past the expiry; otherwise it returns the
claims. -/
def jwtVerify (tok : TokenWire) (secret : String) (now : Nat) : Option Claims :=
  match tok with
  | .malformed _ => none
  | .signed t => if t.secret = secret ∧ now ≤ t.exp then some t.payload else none

/-- Source: generateToken signs the payload with JWT_SECRET and the
configured expiry; none models the exception the signer raises on an
unparseable duration. -/
def generateToken (env : Env) (payload : Claims) (now : Nat) : Option SignedToken :=
  (parseExpiresIn (JWT_EXPIRES_IN env)).map (fun ttl => jwtSign payload (JWT_SECRET env) ttl now)

/-- Source: verifyToken runs the library verification under JWT_SECRET
and collapses every failure into a single rejection, modelled as none. -/
def verifyToken (env : Env) (tok : TokenWire) (now : Nat) : Option Claims :=
  jwtVerify tok (JWT_SECRET env) now

/-- Source: returns null when the header is absent, falsy, or does not
start with the literal Bearer-space prefix; otherwise the substring
after the 7 character prefix. -/
def extractTokenFromHeader (authHeader : Option String) : Option String :=
  match authHeader with
  | none => none
  | some h =>
    if h.data.isEmpty then none
    else if strStartsWith h "Bearer " then some (strDrop h 7)
    else none

/-- An inbound request as seen by the gate: the authorization header and
the user slot the gate may populate. -/
structure Req where
  authorization : Option String
  user : Option Claims
deriving DecidableEq, Repr

/-- The observable outcome of the gate: an early rejection with a status
and message, or the downstream response produced with the verified user
attached. -/
inductive GateResult (α : Type) where
  | rejected (status : Nat) (message : String) : GateResult α
  | handled (user : Claims) (response : α) : GateResult α
deriving DecidableEq, Repr

/-- Source: the verifyJWT middleware; it extracts the token, rejects
falsy tokens, verifies, attaches the decoded claims to the request and
only then invokes the wrapped handler. The decode argument models the
parse of the wire string into a token structure. -/
def verifyJWT {α : Type} (decode : String → TokenWire) (env : Env) (now : Nat)
    (handler : Req → α) (req : Req) : GateResult α :=
  match extractTokenFromHeader req.authorization with
  | none => .rejected 401 "Access denied. No token provided."
  | some tok =>
    if tok.data.isEmpty then .rejected 401 "Access denied. No token provided."
    else
      match verifyToken env (decode tok) now with
      | none => .rejected 401 "Invalid token."
      | some decoded => .handled decoded (handler { req with user := some decoded })

/-- Modelled from the spec: the password hasher is not in the repository
sources (only its caller is); a salted one-way hash is modelled as a
record of the hashed plaintext together with its salt. -/
structure PasswordHash where
  plaintext : String
  salt : Nat
deriving DecidableEq, Repr

/-- Modelled from the spec: hashing embeds its own salt, so repeated
calls with fresh salts differ. -/
def pwHash (plaintext : String) (salt : Nat) : PasswordHash :=
  { plaintext := plaintext, salt := salt }

/-- Modelled from the spec: verification compares the candidate
plaintext against the hash and returns a boolean, never failing on a
mismatch. -/
def pwVerify (candidate : String) (h : PasswordHash) : Bool :=
  candidate == h.plaintext

/-- A stored user record as the credential store holds it, including the
password hash. -/
structure UserRecord where
  _id : Nat
  name : String
  email : String
  password : PasswordHash
  role : String
  avatar : Option String
  isVerified : Bool
  createdAt : Nat
deriving DecidableEq, Repr

/-- The user projection the endpoints return; it has no password
field. -/
structure UserData where
  id : Nat
  name : String
  email : String
  role : String
  avatar : Option String
  isVerified : Bool
  createdAt : Nat
deriving DecidableEq, Repr

/-- Source: the response projection every endpoint builds; it copies
every field except the password hash. -/
def toUserData (u : UserRecord) : UserData :=
  { id := u._id, name := u.name, email := u.email, role := u.role,
    avatar := u.avatar, isVerified := u.isVerified, createdAt := u.createdAt }

/-- The credential store lookup by email, first match wins. -/
def findOneByEmail (db : List UserRecord) (email : String) : Option UserRecord :=
  db.find? (fun u => u.email == email)

/-- The credential store lookup by identifier, first match wins. -/
def findById (db : List UserRecord) (id : Nat) : Option UserRecord :=
  db.find? (fun u => u._id == id)

/-- The structured response body plus HTTP status the route handlers
produce. -/
structure ApiResp where
  status : Nat
  success : Bool
  message : Option String
  user : Option UserData
  token : Option SignedToken
deriving DecidableEq, Repr

/-- A failure response: a status with a message and no user or token. -/
def failResp (status : Nat) (message : String) : ApiResp :=
  { status := status, success := false, message := some message,
    user := none, token := none }

/-- Source: the login route handler. -/
def loginPOST (db : List UserRecord) (env : Env) (now : Nat)
    (email password : Option String) : ApiResp :=
  if jsFalsy email || jsFalsy password then
    failResp 400 "Please provide email and password"
  else
    match findOneByEmail db (email.getD "") with
    | none => failResp 401 "Invalid email or password"
    | some u =>
      if pwVerify (password.getD "") u.password = false then
        failResp 401 "Invalid email or password"
      else
        match generateToken env ⟨u._id, u.email, u.name, u.role⟩ now with
        | none => failResp 500 "Internal server error"
        | some tok =>
          { status := 200, success := true, message := some "Login successful",
            user := some (toUserData u), token := some tok }

/-- Modelled from the spec: the outcome of the credential store insert;
the stored record on success, a field validation failure with its
individual messages, or any other failure. The user model performing
the validation is not in the repository sources. -/
inductive SaveOutcome where
  | ok (u : UserRecord) : SaveOutcome
  | validationError (messages : List String) : SaveOutcome
  | otherError : SaveOutcome
deriving DecidableEq, Repr

/-- Source: the signup route handler; the save argument is the outcome
of the credential store insert for this request. -/
def signupPOST (db : List UserRecord) (env : Env) (now : Nat)
    (name email password : Option String) (save : SaveOutcome) : ApiResp :=
  if jsFalsy name || jsFalsy email || jsFalsy password then
    failResp 400 "Please provide all required fields"
  else if (password.getD "").length < 6 then
    failResp 400 "Password must be at least 6 characters long"
  else
    match findOneByEmail db (email.getD "") with
    | some _ => failResp 409 "User already exists with this email"
    | none =>
      match save with
      | .validationError msgs => failResp 400 (String.intercalate ", " msgs)
      | .otherError => failResp 500 "Internal server error"
      | .ok u =>
        match generateToken env ⟨u._id, u.email, u.name, u.role⟩ now with
        | none => failResp 500 "Internal server error"
        | some tok =>
          { status := 201, success := true, message := some "User created successfully",
            user := some (toUserData u), token := some tok }

/-- Source: the me route handler; it inlines the gate logic, then
re-fetches the user by the subject identifier with the password
excluded from the projection. -/
def meGET (db : List UserRecord) (env : Env) (now : Nat)
    (decode : String → TokenWire) (authHeader : Option String) : ApiResp :=
  match extractTokenFromHeader authHeader with
  | none => failResp 401 "Access denied. No token provided."
  | some tok =>
    if tok.data.isEmpty then failResp 401 "Access denied. No token provided."
    else
      match verifyToken env (decode tok) now with
      | none => failResp 401 "Invalid token"
      | some decoded =>
        match findById db decoded.userId with
        | none => failResp 404 "User not found"
        | some u =>
          { status := 200, success := true, message := none,
            user := some (toUserData u), token := none }

/-- A concrete claims payload used to exercise the definitions. -/
def annClaims : Claims := ⟨1, "ann@x.com", "Ann", "user"⟩

/-- The environment with both variables unset. -/
def defaultEnv : Env := ⟨none, none⟩

/-- A concrete token issued at time 0 under the default secret with the
default 7 day ttl. -/
def tok0 : SignedToken := jwtSign annClaims "your-super-secret-jwt-key" 604800 0

/-- A concrete stored record used to exercise the definitions. -/
def annRecord : UserRecord :=
  ⟨1, "Ann", "ann@x.com", pwHash "secret1" 0, "user", none, false, 0⟩

/-- A one-record store. -/
def dbAnn : List UserRecord := [annRecord]

theorem strStartsWith_bearer_ne_empty (h : String)
    (hs : strStartsWith h "Bearer " = true) : h.data.isEmpty = false := by
  cases hd : h.data with
  | nil =>
    rw [strStartsWith, hd] at hs
    exact absurd hs (by decide)
  | cons a l => simp [hd]

/-- C9: hashing then verifying the same plaintext succeeds, and verifying
any different plaintext returns false rather than failing. -/
theorem pwVerify_round_trip (p q : String) (salt : Nat) (hne : q ≠ p) :
    pwVerify p (pwHash p salt) = true ∧ pwVerify q (pwHash p salt) = false := by
  constructor
  · simp [pwVerify, pwHash]
  · simp [pwVerify, pwHash]
    exact hne

theorem pwVerify_round_trip_witness :
    ("wrong" : String) ≠ "secret1" ∧
    (pwVerify "secret1" (pwHash "secret1" 0) = true ∧
      pwVerify "wrong" (pwHash "secret1" 0) = false) :=
  ⟨by decide, pwVerify_round_trip "secret1" "wrong" 0 (by decide)⟩

/-- C10: with JWT_SECRET unset the module signs with the hardcoded
default secret and defaults the expiry string to 7d, so every token such
a process issues verifies under the publicly visible default secret. -/
theorem default_secret_when_env_unset (env : Env) (payload : Claims) (t0 now : Nat)
    (hs : env.jwtSecretVar = none) :
    JWT_SECRET env = "your-super-secret-jwt-key" ∧
    (env.jwtExpiresInVar = none → JWT_EXPIRES_IN env = "7d") ∧
    ∀ tok, generateToken env payload t0 = some tok →
      tok.secret = "your-super-secret-jwt-key" ∧
      (now ≤ tok.exp →
        jwtVerify (TokenWire.signed tok) "your-super-secret-jwt-key" now = some payload) := by
  refine ⟨by simp [JWT_SECRET, hs], fun he => by simp [JWT_EXPIRES_IN, he], ?_⟩
  intro tok hgen
  unfold generateToken at hgen
  cases hp : parseExpiresIn (JWT_EXPIRES_IN env) with
  | none => rw [hp] at hgen; simp at hgen
  | some ttl =>
    rw [hp] at hgen
    simp only [Option.map, Option.some.injEq] at hgen
    subst hgen
    refine ⟨by simp [jwtSign, JWT_SECRET, hs], fun hle => ?_⟩
    simp only [jwtSign] at hle
    simp [jwtVerify, jwtSign, JWT_SECRET, hs, hle]

theorem default_secret_when_env_unset_witness :
    (defaultEnv.jwtSecretVar = none) ∧
    (JWT_SECRET defaultEnv = "your-super-secret-jwt-key" ∧
      (defaultEnv.jwtExpiresInVar = none → JWT_EXPIRES_IN defaultEnv = "7d") ∧
      ∀ tok, generateToken defaultEnv annClaims 0 = some tok →
        tok.secret = "your-super-secret-jwt-key" ∧
        (100 ≤ tok.exp →
          jwtVerify (TokenWire.signed tok) "your-super-secret-jwt-key" 100 = some annClaims)) :=
  ⟨rfl, default_secret_when_env_unset defaultEnv annClaims 0 100 rfl⟩

/-- C3: verifyToken fails exactly when the token is malformed, the
signature secret differs from the process secret, or the check time is
past the expiry; in particular every token signed with another secret is
rejected. -/
theorem verifyToken_fails_iff (env : Env) (tok : TokenWire) (now : Nat) :
    (verifyToken env tok now = none ↔
      (∃ r, tok = TokenWire.malformed r) ∨
      (∃ t, tok = TokenWire.signed t ∧ (t.secret ≠ JWT_SECRET env ∨ now > t.exp))) ∧
    (∀ t : SignedToken, t.secret ≠ JWT_SECRET env →
      verifyToken env (TokenWire.signed t) now = none) := by
  constructor
  · cases tok with
    | malformed r => simp [verifyToken, jwtVerify]
    | signed t =>
      by_cases hc : t.secret = JWT_SECRET env ∧ now ≤ t.exp
      · simp only [verifyToken, jwtVerify, if_pos hc]
        simp [hc.1, Nat.not_lt.mpr hc.2]
      · simp only [verifyToken, jwtVerify, if_neg hc]
        rw [Decidable.not_and_iff_or_not] at hc
        simp only [Nat.not_le] at hc
        simp [hc]
  · intro t hne
    simp [verifyToken, jwtVerify, hne]

theorem verifyToken_fails_iff_witness :
    (jwtSign annClaims "other-secret" 604800 0).secret ≠ JWT_SECRET defaultEnv ∧
    verifyToken defaultEnv
      (TokenWire.signed (jwtSign annClaims "other-secret" 604800 0)) 0 = none :=
  ⟨by decide,
   (verifyToken_fails_iff defaultEnv
      (TokenWire.signed (jwtSign annClaims "other-secret" 604800 0)) 0).2
     (jwtSign annClaims "other-secret" 604800 0) (by decide)⟩

/-- C6: a token issued at t0 with ttl T verifies at every check time
strictly before t0 + T and is rejected at every check time after t0 + T,
and T is 604800 seconds, that is 7 days, when the expiry variable is
unset. -/
theorem token_ttl_window (env : Env) (payload : Claims) (t0 ttl now : Nat)
    (tok : SignedToken)
    (hparse : parseExpiresIn (JWT_EXPIRES_IN env) = some ttl)
    (hgen : generateToken env payload t0 = some tok) :
    (now < t0 + ttl → verifyToken env (TokenWire.signed tok) now = some payload) ∧
    (now > t0 + ttl → verifyToken env (TokenWire.signed tok) now = none) ∧
    (env.jwtExpiresInVar = none → ttl = 604800) := by
  have htok : tok = jwtSign payload (JWT_SECRET env) ttl t0 := by
    unfold generateToken at hgen
    rw [hparse] at hgen
    simpa using hgen.symm
  subst htok
  refine ⟨fun hlt => ?_, fun hgt => ?_, fun he => ?_⟩
  · simp [verifyToken, jwtVerify, jwtSign, Nat.le_of_lt hlt]
  · simp [verifyToken, jwtVerify, jwtSign, Nat.not_le.mpr hgt]
  · rw [JWT_EXPIRES_IN, he] at hparse
    have h7 : parseExpiresIn (Option.getD none "7d") = some 604800 := by decide
    rw [h7] at hparse
    exact (Option.some_inj.mp hparse).symm

theorem token_ttl_window_witness :
    parseExpiresIn (JWT_EXPIRES_IN defaultEnv) = some 604800 ∧
    generateToken defaultEnv annClaims 0 = some tok0 ∧
    verifyToken defaultEnv (TokenWire.signed tok0) 100 = some annClaims ∧
    verifyToken defaultEnv (TokenWire.signed tok0) 604801 = none ∧
    (defaultEnv.jwtExpiresInVar = none → 604800 = 604800) :=
  ⟨by decide, by decide,
   (token_ttl_window defaultEnv annClaims 0 604800 100 tok0 (by decide) (by decide)).1
     (by decide),
   (token_ttl_window defaultEnv annClaims 0 604800 604801 tok0 (by decide) (by decide)).2.1
     (by decide),
   fun _ => rfl⟩

/-- C2: the login failure for an unknown email and the login failure for
a known email with a wrong password are the same response: status 401
with the identical message string. -/
theorem login_failure_indistinguishable (db : List UserRecord) (env : Env) (now : Nat)
    (email password : Option String)
    (he : jsFalsy email = false) (hp : jsFalsy password = false) :
    (findOneByEmail db (email.getD "") = none →
      loginPOST db env now email password =
        failResp 401 "Invalid email or password") ∧
    (∀ u, findOneByEmail db (email.getD "") = some u →
      pwVerify (password.getD "") u.password = false →
      loginPOST db env now email password =
        failResp 401 "Invalid email or password") := by
  constructor
  · intro hf
    simp [loginPOST, he, hp, hf]
  · intro u hf hv
    simp [loginPOST, he, hp, hf, hv]

theorem login_failure_indistinguishable_witness :
    jsFalsy (some "bob@x.com") = false ∧ jsFalsy (some "wrongpw") = false ∧
    findOneByEmail dbAnn "bob@x.com" = none ∧
    findOneByEmail dbAnn "ann@x.com" = some annRecord ∧
    pwVerify "wrongpw" annRecord.password = false ∧
    loginPOST dbAnn defaultEnv 0 (some "bob@x.com") (some "wrongpw") =
      failResp 401 "Invalid email or password" ∧
    loginPOST dbAnn defaultEnv 0 (some "ann@x.com") (some "wrongpw") =
      failResp 401 "Invalid email or password" :=
  ⟨by decide, by decide, by decide, by decide, by decide,
   (login_failure_indistinguishable dbAnn defaultEnv 0
      (some "bob@x.com") (some "wrongpw") (by decide) (by decide)).1 (by decide),
   (login_failure_indistinguishable dbAnn defaultEnv 0
      (some "ann@x.com") (some "wrongpw") (by decide) (by decide)).2
     annRecord (by decide) (by decide)⟩

/-- C1: on every run of the verifyJWT gate either verification succeeded
and the downstream handler is invoked exactly once with the decoded
claims attached to the request, or the run is a 401 rejection whose
outcome is the same for every possible handler, so no handler is ever
invoked and no identity is attached on a rejection path. -/
theorem verifyJWT_invokes_handler_at_most_once {α : Type} (decode : String → TokenWire)
    (env : Env) (now : Nat) (handler : Req → α) (req : Req) :
    (∃ tok c, extractTokenFromHeader req.authorization = some tok ∧
        tok.data.isEmpty = false ∧ verifyToken env (decode tok) now = some c ∧
        verifyJWT decode env now handler req =
          GateResult.handled c (handler { req with user := some c })) ∨
    (∃ m, verifyJWT decode env now handler req = GateResult.rejected 401 m ∧
        ∀ (β : Type) (g : Req → β),
          verifyJWT decode env now g req = GateResult.rejected 401 m) := by
  cases hx : extractTokenFromHeader req.authorization with
  | none =>
    refine Or.inr ⟨"Access denied. No token provided.", ?_, ?_⟩
    · simp [verifyJWT, hx]
    · intro β g
      simp [verifyJWT, hx]
  | some tok =>
    cases hemp : tok.data.isEmpty with
    | true =>
      refine Or.inr ⟨"Access denied. No token provided.", ?_, ?_⟩
      · simp [verifyJWT, hx, hemp]
      · intro β g
        simp [verifyJWT, hx, hemp]
    | false =>
      cases hv : verifyToken env (decode tok) now with
      | none =>
        refine Or.inr ⟨"Invalid token.", ?_, ?_⟩
        · simp [verifyJWT, hx, hemp, hv]
        · intro β g
          simp [verifyJWT, hx, hemp, hv]
      | some c =>
        left
        refine ⟨tok, c, rfl, hemp, hv, ?_⟩
        simp [verifyJWT, hx, hemp, hv]

/-- C4: the gate accepts exactly the case-sensitive Bearer-space scheme:
an absent header, a header with any other scheme such as Basic, and an
empty substring after the 7 character prefix are each rejected with 401
before the handler can run, and otherwise the raw token handed to
verification is exactly the substring after the prefix. -/
theorem gate_header_parsing {α : Type} (decode : String → TokenWire) (env : Env)
    (now : Nat) (handler : Req → α) (u0 : Option Claims) :
    extractTokenFromHeader none = none ∧
    (∀ h : String, strStartsWith h "Bearer " = false →
      extractTokenFromHeader (some h) = none) ∧
    (∀ h : String, strStartsWith h "Bearer " = true →
      extractTokenFromHeader (some h) = some (strDrop h 7)) ∧
    (∀ auth : Option String, extractTokenFromHeader auth = none →
      verifyJWT decode env now handler ⟨auth, u0⟩ =
        GateResult.rejected 401 "Access denied. No token provided.") ∧
    (∀ h : String, strStartsWith h "Bearer " = true →
      (strDrop h 7).data.isEmpty = true →
      verifyJWT decode env now handler ⟨some h, u0⟩ =
        GateResult.rejected 401 "Access denied. No token provided.") ∧
    (∀ h : String, strStartsWith h "Bearer " = true →
      (strDrop h 7).data.isEmpty = false →
      verifyJWT decode env now handler ⟨some h, u0⟩ =
        (match verifyToken env (decode (strDrop h 7)) now with
         | none => GateResult.rejected 401 "Invalid token."
         | some c => GateResult.handled c (handler ⟨some h, some c⟩))) := by
  refine ⟨rfl, ?_, ?_, ?_, ?_, ?_⟩
  · intro h hs
    simp [extractTokenFromHeader, hs]
  · intro h hs
    simp [extractTokenFromHeader, hs, strStartsWith_bearer_ne_empty h hs]
  · intro auth hx
    simp [verifyJWT, hx]
  · intro h hs hemp
    have hne := strStartsWith_bearer_ne_empty h hs
    simp [verifyJWT, extractTokenFromHeader, hne, hs, hemp]
  · intro h hs hemp
    have hne := strStartsWith_bearer_ne_empty h hs
    cases hv : verifyToken env (decode (strDrop h 7)) now with
    | none => simp [verifyJWT, extractTokenFromHeader, hne, hs, hemp, hv]
    | some c => simp [verifyJWT, extractTokenFromHeader, hne, hs, hemp, hv]

theorem gate_header_parsing_witness :
    strStartsWith "Basic xyz" "Bearer " = false ∧
    extractTokenFromHeader (some "Basic xyz") = none ∧
    verifyJWT TokenWire.malformed defaultEnv 0 (fun _ => (0 : Nat))
      ⟨some "Basic xyz", none⟩ =
      GateResult.rejected 401 "Access denied. No token provided." := by
  refine ⟨by decide, ?_, ?_⟩
  · exact (gate_header_parsing TokenWire.malformed defaultEnv 0
      (fun _ => (0 : Nat)) none).2.1 "Basic xyz" (by decide)
  · exact (gate_header_parsing TokenWire.malformed defaultEnv 0
      (fun _ => (0 : Nat)) none).2.2.2.1 (some "Basic xyz") (by decide)

/-- C5: the signup handler checks in order: missing fields give 400
before everything else, a short password gives 400 before the store
lookup, a duplicate email gives 409 before the insert, a store field
validation failure gives 400 with the joined messages, any other insert
failure gives 500, and on success it returns 201 with the password-free
projection and a freshly issued token. -/
theorem signup_order_and_error_mapping (db : List UserRecord) (env : Env) (now : Nat)
    (name email password : Option String) (save : SaveOutcome) :
    ((jsFalsy name || jsFalsy email || jsFalsy password) = true →
      signupPOST db env now name email password save =
        failResp 400 "Please provide all required fields") ∧
    ((jsFalsy name || jsFalsy email || jsFalsy password) = false →
      (password.getD "").length < 6 →
      signupPOST db env now name email password save =
        failResp 400 "Password must be at least 6 characters long") ∧
    (∀ u, (jsFalsy name || jsFalsy email || jsFalsy password) = false →
      ¬ (password.getD "").length < 6 →
      findOneByEmail db (email.getD "") = some u →
      signupPOST db env now name email password save =
        failResp 409 "User already exists with this email") ∧
    (∀ msgs, (jsFalsy name || jsFalsy email || jsFalsy password) = false →
      ¬ (password.getD "").length < 6 →
      findOneByEmail db (email.getD "") = none →
      save = SaveOutcome.validationError msgs →
      signupPOST db env now name email password save =
        failResp 400 (String.intercalate ", " msgs)) ∧
    ((jsFalsy name || jsFalsy email || jsFalsy password) = false →
      ¬ (password.getD "").length < 6 →
      findOneByEmail db (email.getD "") = none →
      save = SaveOutcome.otherError →
      signupPOST db env now name email password save =
        failResp 500 "Internal server error") ∧
    (∀ u tok, (jsFalsy name || jsFalsy email || jsFalsy password) = false →
      ¬ (password.getD "").length < 6 →
      findOneByEmail db (email.getD "") = none →
      save = SaveOutcome.ok u →
      generateToken env ⟨u._id, u.email, u.name, u.role⟩ now = some tok →
      signupPOST db env now name email password save =
        { status := 201, success := true, message := some "User created successfully",
          user := some (toUserData u), token := some tok }) := by
  refine ⟨?_, ?_, ?_, ?_, ?_, ?_⟩
  · intro hmiss
    simp [signupPOST, hmiss]
  · intro hmiss hshort
    simp [signupPOST, hmiss, hshort]
  · intro u hmiss hlen hdup
    simp [signupPOST, hmiss, hlen, hdup]
  · intro msgs hmiss hlen hfree hsave
    simp [signupPOST, hmiss, hlen, hfree, hsave]
  · intro hmiss hlen hfree hsave
    simp [signupPOST, hmiss, hlen, hfree, hsave]
  · intro u tok hmiss hlen hfree hsave htok
    simp [signupPOST, hmiss, hlen, hfree, hsave, htok]

theorem signup_order_and_error_mapping_witness :
    (jsFalsy (some "Bob") || jsFalsy (some "ann@x.com") || jsFalsy (some "secret2")) = false ∧
    ¬ ("secret2" : String).length < 6 ∧
    findOneByEmail dbAnn "ann@x.com" = some annRecord ∧
    signupPOST dbAnn defaultEnv 0 (some "Bob") (some "ann@x.com") (some "secret2")
        (SaveOutcome.ok annRecord) =
      failResp 409 "User already exists with this email" ∧
    signupPOST [] defaultEnv 0 (some "Ann") (some "ann@x.com") (some "secret1")
        (SaveOutcome.ok annRecord) =
      { status := 201, success := true, message := some "User created successfully",
        user := some (toUserData annRecord), token := some tok0 } := by
  refine ⟨by decide, by decide, by decide, ?_, ?_⟩
  · exact (signup_order_and_error_mapping dbAnn defaultEnv 0 (some "Bob")
      (some "ann@x.com") (some "secret2") (SaveOutcome.ok annRecord)).2.2.1
      annRecord (by decide) (by decide) (by decide)
  · exact (signup_order_and_error_mapping [] defaultEnv 0 (some "Ann")
      (some "ann@x.com") (some "secret1") (SaveOutcome.ok annRecord)).2.2.2.2.2
      annRecord tok0 (by decide) (by decide) (by decide) rfl (by decide)

/-- C7: once the token of a me request verifies to claims, the handler
looks the user up by the subject identifier: 404 when the record is
gone, otherwise 200 with the stored record projected without the
password, a projection that ignores the password field entirely. -/
theorem me_refetches_current_record (db : List UserRecord) (env : Env) (now : Nat)
    (decode : String → TokenWire) (authHeader : Option String) (tok : String)
    (c : Claims)
    (hex : extractTokenFromHeader authHeader = some tok)
    (hne : tok.data.isEmpty = false)
    (hv : verifyToken env (decode tok) now = some c) :
    (findById db c.userId = none →
      meGET db env now decode authHeader = failResp 404 "User not found") ∧
    (∀ u, findById db c.userId = some u →
      meGET db env now decode authHeader =
        { status := 200, success := true, message := none,
          user := some (toUserData u), token := none }) ∧
    (∀ (u : UserRecord) (ph : PasswordHash),
      toUserData { u with password := ph } = toUserData u) := by
  refine ⟨?_, ?_, fun u ph => rfl⟩
  · intro hf
    simp [meGET, hex, hne, hv, hf]
  · intro u hf
    simp [meGET, hex, hne, hv, hf]

theorem me_refetches_current_record_witness :
    extractTokenFromHeader (some "Bearer ann") = some "ann" ∧
    ("ann" : String).data.isEmpty = false ∧
    verifyToken defaultEnv (TokenWire.signed tok0) 100 = some annClaims ∧
    findById dbAnn annClaims.userId = some annRecord ∧
    meGET dbAnn defaultEnv 100 (fun _ => TokenWire.signed tok0) (some "Bearer ann") =
      { status := 200, success := true, message := none,
        user := some (toUserData annRecord), token := none } := by
  refine ⟨by decide, by decide, by decide, by decide, ?_⟩
  exact (me_refetches_current_record dbAnn defaultEnv 100
    (fun _ => TokenWire.signed tok0) (some "Bearer ann") "ann" annClaims
    (by decide) (by decide) (by decide)).2.1 annRecord (by decide)

/-- C8: the user object in every response of the signup, login and me
handlers is either absent or the password-free projection of a stored
record, and that projection is unchanged by any change of the stored
password hash, so no response ever carries a password or password hash
field. -/
theorem responses_exclude_password (db : List UserRecord) (env : Env) (now : Nat)
    (name email password : Option String) (save : SaveOutcome)
    (decode : String → TokenWire) (authHeader : Option String) :
    (∀ (u : UserRecord) (ph : PasswordHash),
      toUserData { u with password := ph } = toUserData u) ∧
    ((signupPOST db env now name email password save).user = none ∨
      ∃ u, (signupPOST db env now name email password save).user =
        some (toUserData u)) ∧
    ((loginPOST db env now email password).user = none ∨
      ∃ u, (loginPOST db env now email password).user = some (toUserData u)) ∧
    ((meGET db env now decode authHeader).user = none ∨
      ∃ u, (meGET db env now decode authHeader).user = some (toUserData u)) := by
  refine ⟨fun u ph => rfl, ?_, ?_, ?_⟩
  · unfold signupPOST
    repeat' split
    all_goals simp [failResp]
  · unfold loginPOST
    repeat' split
    all_goals simp [failResp]
  · unfold meGET
    repeat' split
    all_goals simp [failResp]

end NextAuth
